import Mathlib

/-!
Shallow embedding of the focusDistraction repository
(`sample_scripts/chromeCheck.py` and `sample_scripts/chromeHistory.py`).

Python strings are modeled as `List Char`; Python numeric division
(`/` on ints, which is exact in the values this code produces before any
rounding is observed) is modeled exactly over `Rat`; `datetime.fromtimestamp`
is modeled as the identity on its seconds argument; fallible steps are
modeled with `Option` or with explicit failure scenarios.
-/

/-- Python strings, modeled as lists of characters. -/
abbrev PyStr := List Char

/-- Model of Python `str.strip()`: drop whitespace from both ends. -/
def pyStrip (s : PyStr) : PyStr :=
  ((s.dropWhile Char.isWhitespace).reverse.dropWhile Char.isWhitespace).reverse

/-- Numeric value of a decimal digit character. -/
def digitVal (c : Char) : Nat := c.toNat - 48

/-- Value of a list of decimal digit characters, most significant first. -/
def decimalValue (ds : PyStr) : Nat := ds.foldl (fun a c => a * 10 + digitVal c) 0

/-- A nonempty all-digit run parses to its value, anything else fails. -/
def pyDigits (ds : PyStr) : Option Nat :=
  if ds ≠ [] ∧ ds.all Char.isDigit then some (decimalValue ds) else none

/-- Model of Python `int(s)`: strip whitespace, optional single sign, then a
nonempty run of decimal digits; everything else raises (modeled as `none`).
(Digit-grouping underscores, which never occur in this pipeline, are not
modeled.) -/
def pyInt (s : PyStr) : Option Int :=
  match pyStrip s with
  | [] => none
  | c :: rest =>
    if c = '+' then (pyDigits rest).map (fun n => Int.ofNat n)
    else if c = '-' then (pyDigits rest).map (fun n => -(Int.ofNat n))
    else (pyDigits (c :: rest)).map (fun n => Int.ofNat n)

/-- Digit characters of a positive natural number, most significant first.
The first argument is structural fuel; any `fuel ≥ n` is enough. -/
def natToDecimalAux : Nat → Nat → List Char
  | _, 0 => []
  | 0, _ + 1 => []
  | fuel + 1, n + 1 =>
    natToDecimalAux fuel ((n + 1) / 10) ++ [Char.ofNat (48 + (n + 1) % 10)]

/-- Decimal rendering of a natural number, as the AppleScript `windowNum`
is rendered into the pipe-delimited output line. -/
def natToDecimal (n : Nat) : PyStr :=
  if n = 0 then ['0'] else natToDecimalAux n n

/-- A browser tab dict as built by `getCurrentChromeTabs`
(chromeCheck.py lines 53-57). -/
structure Tab where
  url : PyStr
  title : PyStr
  window : Int
deriving DecidableEq

/-- The parsing loop of `getCurrentChromeTabs` (chromeCheck.py lines 48-57):
skip empty lines, split each line on the pipe, keep lines with exactly three
fields, convert the third field with `int()`.  `none` models an exception
raised by `int()`, which aborts the whole loop. -/
def parseTabsLoop : List PyStr → Option (List Tab)
  | [] => some []
  | line :: rest =>
    if line = [] then parseTabsLoop rest
    else
      match line.splitOn '|' with
      | [a, b, c] =>
        match pyInt c with
        | some n =>
          (parseTabsLoop rest).map
            (fun tabs => { url := a, title := b, window := n } :: tabs)
        | none => none
      | _ => parseTabsLoop rest

/-- Outcome of the `subprocess.run` call in `getCurrentChromeTabs`. -/
inductive SubprocessOutcome where
  | timeout
  | completed (returncode : Int) (stdout stderr : PyStr)

/-- `getCurrentChromeTabs` (chromeCheck.py lines 34-66) as a function of the
subprocess outcome: a timeout or a nonzero exit status yields `[]`; otherwise
stdout is stripped, split into lines and parsed; an exception raised while
parsing is caught by the broad `except` and also yields `[]`. -/
def getCurrentChromeTabs (o : SubprocessOutcome) : List Tab :=
  match o with
  | .timeout => []
  | .completed rc out _ =>
    if rc ≠ 0 then []
    else
      match parseTabsLoop ((pyStrip out).splitOn '\n') with
      | some tabs => tabs
      | none => []

/-- The fixed distracting-domain list
(chromeCheck.py line 82, chromeHistory.py line 215). -/
def distractingDomains : List PyStr :=
  [String.toList "youtube.com", String.toList "reddit.com",
   String.toList "twitter.com", String.toList "instagram.com"]

/-- Python substring containment `pat in s`: `pat` is a prefix of some
suffix of `s`. -/
def pySubstring (pat s : PyStr) : Bool :=
  s.tails.any (fun t => List.isPrefixOf pat t)

/-- Python `any(domain in url for domain in distracting_domains)`. -/
def isDistraction (url : PyStr) : Bool :=
  distractingDomains.any (fun d => pySubstring d url)

/-- The `distractions` list comprehension (chromeCheck.py line 83). -/
def distractions (tabs : List Tab) : List Tab :=
  tabs.filter (fun t => isDistraction t.url)

/-- A raw row of the two-table history join: SQL NULL columns are `none`. -/
structure Row where
  url : PyStr
  title : Option PyStr
  visit_count : Int
  visit_time : Option Int
  visit_duration : Option Int
deriving DecidableEq

/-- A history entry dict (chromeHistory.py lines 69-75).  `visit_time` holds
the unix timestamp carried by the datetime (`datetime.fromtimestamp` is
modeled as the identity on seconds), or `none` for Python `None`. -/
structure Entry where
  url : PyStr
  title : PyStr
  visit_time : Option Rat
  visit_count : Int
  duration_seconds : Rat
deriving DecidableEq

/-- Python truthiness of a nullable integer column: `None` and `0` are falsy. -/
def pyTruthyInt : Option Int → Bool
  | some n => n != 0
  | none => false

/-- Python `title or '(No title)'`: `None` and the empty string are falsy. -/
def pyTitleOrDefault : Option PyStr → PyStr
  | some s => if s = [] then String.toList "(No title)" else s
  | none => String.toList "(No title)"

/-- The timestamp conversion expression `(chrome_time / 1000000) - 11644473600`
(chromeHistory.py lines 64 and 145), exact over `Rat`. -/
def chromeTimeToUnix (t : Int) : Rat := (t : Rat) / 1000000 - 11644473600

/-- The per-row transformation of `getRecentChromeHistoryWAL`
(chromeHistory.py lines 56-75). -/
def rowToEntryWAL (r : Row) : Entry :=
  { url := r.url
    title := pyTitleOrDefault r.title
    visit_time :=
      if pyTruthyInt r.visit_time then some (chromeTimeToUnix (r.visit_time.getD 0))
      else none
    visit_count := r.visit_count
    duration_seconds :=
      if pyTruthyInt r.visit_duration then ((r.visit_duration.getD 0 : Int) : Rat) / 1000000
      else 0 }

/-- The per-row transformation of `getRecentChromeHistoryCopy`
(chromeHistory.py lines 140-156). -/
def rowToEntryCopy (r : Row) : Entry :=
  { url := r.url
    title := pyTitleOrDefault r.title
    visit_time :=
      if pyTruthyInt r.visit_time then some (chromeTimeToUnix (r.visit_time.getD 0))
      else none
    visit_count := r.visit_count
    duration_seconds :=
      if pyTruthyInt r.visit_duration then ((r.visit_duration.getD 0 : Int) : Rat) / 1000000
      else 0 }

/-- Failure environment of `getRecentChromeHistoryWAL`: the store is missing,
an `sqlite3.OperationalError` is raised, some other exception is raised, or
the query succeeds and returns these rows. -/
inductive WALEnv where
  | notFound
  | opError
  | otherError
  | ok (rows : List Row)

/-- `getRecentChromeHistoryWAL` (chromeHistory.py lines 7-85): every failure
arm returns `[]`; on success each fetched row is transformed in order. -/
def getRecentChromeHistoryWAL : WALEnv → List Entry
  | .notFound => []
  | .opError => []
  | .otherError => []
  | .ok rows => rows.map rowToEntryWAL

/-- The SQL text of the WAL-strategy query (chromeHistory.py lines 39-50). -/
def walQuery : String :=
  "\n        SELECT \n            urls.url,\n            urls.title,\n            urls.visit_count,\n            visits.visit_time,\n            visits.visit_duration\n        FROM urls\n        JOIN visits ON urls.id = visits.url\n        ORDER BY visits.visit_time DESC\n        LIMIT ?\n        "

/-- The SQL text of the copy-strategy query (chromeHistory.py lines 123-134). -/
def copyQuery : String :=
  "\n        SELECT \n            urls.url,\n            urls.title,\n            urls.visit_count,\n            visits.visit_time,\n            visits.visit_duration\n        FROM urls\n        JOIN visits ON urls.id = visits.url\n        ORDER BY visits.visit_time DESC\n        LIMIT ?\n        "

/-- File-system state relevant to `getRecentChromeHistoryCopy`: the source
store and its `-journal` sidecar, and the scratch copy
`/tmp/chrome_history_copy.db` and its sidecar. -/
structure FS where
  historyExists : Bool
  journalExists : Bool
  scratchExists : Bool
  scratchJournalExists : Bool
deriving DecidableEq

/-- Which step of the try block of `getRecentChromeHistoryCopy` raises an
exception, if that step is reached: none of them, the `shutil.copy2` of the
store, the `shutil.copy2` of the journal sidecar, or the sqlite query. -/
inductive CopyFail where
  | ok
  | atCopyMain
  | atCopyJournal
  | atQuery
deriving DecidableEq

/-- The except-block cleanup of `getRecentChromeHistoryCopy`
(chromeHistory.py lines 167-172): remove the scratch copy if it exists; the
scratch journal sidecar is not touched. -/
def copyExceptCleanup (fs : FS) : FS :=
  if fs.scratchExists then { fs with scratchExists := false } else fs

/-- `getRecentChromeHistoryCopy` (chromeHistory.py lines 88-172) as a state
machine on `FS`, parameterized by which step raises and by the rows the query
would return.  Returns the final file-system state and the returned list. -/
def getRecentChromeHistoryCopy (fs : FS) (fail : CopyFail) (rows : List Row) :
    FS × List Entry :=
  if fs.historyExists = false then (fs, [])
  else if fail = CopyFail.atCopyMain then (copyExceptCleanup fs, [])
  else
    let fs1 : FS := { fs with scratchExists := true }
    if fs.journalExists = true ∧ fail = CopyFail.atCopyJournal then
      (copyExceptCleanup fs1, [])
    else
      let fs2 : FS := if fs.journalExists then { fs1 with scratchJournalExists := true } else fs1
      if fail = CopyFail.atQuery then (copyExceptCleanup fs2, [])
      else
        let fs3 : FS := { fs2 with scratchExists := false }
        let fs4 : FS :=
          if fs3.scratchJournalExists then { fs3 with scratchJournalExists := false } else fs3
        (fs4, rows.map rowToEntryCopy)

/-- `formatTimeDelta` (chromeHistory.py lines 175-189).  The input is the
elapsed whole seconds `datetime.now() - visit_datetime`, or `none` for an
absent timestamp.  Python `timedelta` normalization (`days` is the floor
quotient by 86400 and `seconds` the nonnegative remainder) is floor division,
which for the positive divisor 86400 is `Int.ediv` and `Int.emod`. -/
def formatTimeDelta : Option Int → String
  | none => "Unknown time"
  | some elapsed =>
    let days : Int := Int.ediv elapsed 86400
    let seconds : Int := Int.emod elapsed 86400
    if seconds < 60 then toString seconds ++ " seconds ago"
    else if seconds < 3600 then toString (Int.ediv seconds 60) ++ " minutes ago"
    else if days = 0 then toString (Int.ediv seconds 3600) ++ " hours ago"
    else toString days ++ " days ago"

/-- The `recent_distractions` list comprehension
(chromeHistory.py lines 216-219). -/
def recentDistractions (history : List Entry) : List Entry :=
  history.filter (fun e => isDistraction e.url)

/-- The spec-side statement of the vendor timestamp conversion, written from
the specification text: divide by 1,000,000 and subtract 11,644,473,600,
reading the result as seconds since the 1970-01-01 epoch. -/
def specTimestampConversion (t : Int) : Rat := (t : Rat) / 1000000 - 11644473600

/-! ### Helper lemmas -/

theorem dropWhile_eq_self_of_forall {α : Type} {p : α → Bool} {l : List α}
    (h : ∀ x ∈ l, p x = false) : l.dropWhile p = l := by
  cases l with
  | nil => rfl
  | cons a l => simp [List.dropWhile_cons, h a (List.mem_cons_self a l)]

theorem pyStrip_eq_self {s : PyStr} (h : ∀ c ∈ s, c.isWhitespace = false) :
    pyStrip s = s := by
  unfold pyStrip
  rw [dropWhile_eq_self_of_forall h, dropWhile_eq_self_of_forall, List.reverse_reverse]
  intro c hc
  exact h c (List.mem_reverse.mp hc)

theorem digitChar_isDigit {d : Nat} (hd : d < 10) :
    (Char.ofNat (48 + d)).isDigit = true := by
  interval_cases d <;> decide

theorem digitVal_digitChar {d : Nat} (hd : d < 10) :
    digitVal (Char.ofNat (48 + d)) = d := by
  interval_cases d <;> decide

theorem isDigit_not_isWhitespace {c : Char} (h : c.isDigit = true) :
    c.isWhitespace = false := by
  cases hw : c.isWhitespace with
  | false => rfl
  | true =>
    exfalso
    have hc : ((c = ' ' ∨ c = '\t') ∨ c = '\x0d') ∨ c = '\n' := by
      simpa [Char.isWhitespace] using hw
    rcases hc with ((rfl | rfl) | rfl) | rfl <;> exact absurd h (by decide)

theorem isDigit_ne_plus {c : Char} (h : c.isDigit = true) : c ≠ '+' := by
  intro hc; subst hc; exact absurd h (by decide)

theorem isDigit_ne_minus {c : Char} (h : c.isDigit = true) : c ≠ '-' := by
  intro hc; subst hc; exact absurd h (by decide)

theorem natToDecimalAux_zero (fuel : Nat) : natToDecimalAux fuel 0 = [] := by
  cases fuel <;> rfl

theorem natToDecimalAux_all_isDigit :
    ∀ fuel n, 0 < n → n ≤ fuel → ∀ c ∈ natToDecimalAux fuel n, c.isDigit = true := by
  intro fuel
  induction fuel with
  | zero => intro n hn hle; omega
  | succ fuel ih =>
    intro n hn hle c hc
    obtain ⟨m, rfl⟩ : ∃ m, n = m + 1 := ⟨n - 1, by omega⟩
    rw [natToDecimalAux] at hc
    rcases List.mem_append.mp hc with hc | hc
    · rcases Nat.eq_zero_or_pos ((m + 1) / 10) with hq | hq
      · rw [hq, natToDecimalAux_zero] at hc
        exact absurd hc (List.not_mem_nil c)
      · have hqf : (m + 1) / 10 ≤ fuel := by
          have := Nat.div_lt_self (Nat.succ_pos m) (by norm_num : 1 < 10)
          omega
        exact ih _ hq hqf c hc
    · have : c = Char.ofNat (48 + (m + 1) % 10) := by simpa using hc
      subst this
      exact digitChar_isDigit (Nat.mod_lt _ (by norm_num))

theorem decimalValue_append_digit (xs : PyStr) (c : Char) :
    decimalValue (xs ++ [c]) = decimalValue xs * 10 + digitVal c := by
  unfold decimalValue
  rw [List.foldl_append]
  rfl

theorem decimalValue_natToDecimalAux :
    ∀ fuel n, 0 < n → n ≤ fuel → decimalValue (natToDecimalAux fuel n) = n := by
  intro fuel
  induction fuel with
  | zero => intro n hn hle; omega
  | succ fuel ih =>
    intro n hn hle
    obtain ⟨m, rfl⟩ : ∃ m, n = m + 1 := ⟨n - 1, by omega⟩
    rw [natToDecimalAux, decimalValue_append_digit,
      digitVal_digitChar (Nat.mod_lt _ (by norm_num : (0:Nat) < 10))]
    rcases Nat.eq_zero_or_pos ((m + 1) / 10) with hq | hq
    · rw [hq, natToDecimalAux_zero]
      have : (m + 1) % 10 = m + 1 := by omega
      simp [decimalValue, this]
    · have hqf : (m + 1) / 10 ≤ fuel := by
        have := Nat.div_lt_self (Nat.succ_pos m) (by norm_num : 1 < 10)
        omega
      rw [ih _ hq hqf]
      omega

theorem natToDecimalAux_ne_nil (fuel n : Nat) (hn : 0 < n) (hle : n ≤ fuel) :
    natToDecimalAux fuel n ≠ [] := by
  obtain ⟨m, rfl⟩ : ∃ m, n = m + 1 := ⟨n - 1, by omega⟩
  obtain ⟨f, rfl⟩ : ∃ f, fuel = f + 1 := ⟨fuel - 1, by omega⟩
  rw [natToDecimalAux]
  simp

theorem natToDecimal_zero : natToDecimal 0 = ['0'] := rfl

theorem natToDecimal_pos {n : Nat} (hn : 0 < n) : natToDecimal n = natToDecimalAux n n := by
  unfold natToDecimal
  rw [if_neg (by omega)]

theorem natToDecimal_all_isDigit (n : Nat) : ∀ c ∈ natToDecimal n, c.isDigit = true := by
  rcases Nat.eq_zero_or_pos n with rfl | hn
  · intro c hc
    rw [natToDecimal_zero, List.mem_singleton] at hc
    subst hc; decide
  · rw [natToDecimal_pos hn]
    exact natToDecimalAux_all_isDigit n n hn le_rfl

theorem natToDecimal_ne_nil (n : Nat) : natToDecimal n ≠ [] := by
  rcases Nat.eq_zero_or_pos n with rfl | hn
  · rw [natToDecimal_zero]; simp
  · rw [natToDecimal_pos hn]
    exact natToDecimalAux_ne_nil n n hn le_rfl

theorem decimalValue_natToDecimal (n : Nat) : decimalValue (natToDecimal n) = n := by
  rcases Nat.eq_zero_or_pos n with rfl | hn
  · rw [natToDecimal_zero]; rfl
  · rw [natToDecimal_pos hn]
    exact decimalValue_natToDecimalAux n n hn le_rfl

theorem pyDigits_natToDecimal (n : Nat) : pyDigits (natToDecimal n) = some n := by
  unfold pyDigits
  rw [if_pos ⟨natToDecimal_ne_nil n, List.all_eq_true.mpr (natToDecimal_all_isDigit n)⟩,
    decimalValue_natToDecimal]

theorem pyInt_of_digits {s : PyStr} (hne : s ≠ []) (hall : ∀ c ∈ s, c.isDigit = true) :
    pyInt s = some (Int.ofNat (decimalValue s)) := by
  obtain ⟨c, rest, rfl⟩ : ∃ c rest, s = c :: rest := by
    cases s with
    | nil => exact absurd rfl hne
    | cons c rest => exact ⟨c, rest, rfl⟩
  have hstrip : pyStrip (c :: rest) = c :: rest :=
    pyStrip_eq_self (fun x hx => isDigit_not_isWhitespace (hall x hx))
  have hdig : c.isDigit = true := hall c (List.mem_cons_self c rest)
  simp only [pyInt, hstrip]
  rw [if_neg (isDigit_ne_plus hdig), if_neg (isDigit_ne_minus hdig)]
  unfold pyDigits
  rw [if_pos ⟨List.cons_ne_nil c rest, List.all_eq_true.mpr hall⟩]
  rfl

theorem pyInt_natToDecimal (n : Nat) : pyInt (natToDecimal n) = some (Int.ofNat n) := by
  rw [pyInt_of_digits (natToDecimal_ne_nil n) (natToDecimal_all_isDigit n),
    decimalValue_natToDecimal]

theorem splitOn_eq_single {sep : Char} {s : PyStr} (h : sep ∉ s) : s.splitOn sep = [s] := by
  apply List.splitOnP_eq_single
  intro x hx hbeq
  rw [beq_iff_eq] at hbeq
  exact h (hbeq ▸ hx)

theorem splitOn_sep_append {sep : Char} {a : PyStr} (h : sep ∉ a) (b : PyStr) :
    (a ++ sep :: b).splitOn sep = a :: b.splitOn sep := by
  apply List.splitOnP_first
  · intro x hx hbeq
    rw [beq_iff_eq] at hbeq
    exact h (hbeq ▸ hx)
  · exact beq_self_eq_true sep

theorem pipe_not_mem_natToDecimal (n : Nat) : '|' ∉ natToDecimal n := by
  intro hmem
  exact absurd (natToDecimal_all_isDigit n _ hmem) (by decide)

theorem splitOn_renderValid {u t : PyStr} (hu : '|' ∉ u) (ht : '|' ∉ t) (i : Nat) :
    (u ++ '|' :: (t ++ '|' :: natToDecimal i)).splitOn '|' = [u, t, natToDecimal i] := by
  rw [splitOn_sep_append hu, splitOn_sep_append ht,
    splitOn_eq_single (pipe_not_mem_natToDecimal i)]

/-- The shape of one automation-output line: either a well-formed triple as
the AppleScript emits it, or arbitrary junk. -/
inductive TabLine where
  | valid (url title : PyStr) (idx : Nat)
  | junk (s : PyStr)

/-- Rendering of a line as the AppleScript builds it:
`url & "|" & title & "|" & windowNum` (chromeCheck.py line 28). -/
def renderTabLine : TabLine → PyStr
  | .valid u t i => u ++ '|' :: (t ++ '|' :: natToDecimal i)
  | .junk s => s

/-- Validity hypotheses of the round-trip claim: the fields of a valid line
contain no delimiter; a junk line does not split into exactly three fields. -/
def wellFormedTabLine : TabLine → Bool
  | .valid u t _ => decide ('|' ∉ u) && decide ('|' ∉ t)
  | .junk s => (s.splitOn '|').length != 3

/-- The url/title/window-index triples carried by the valid lines, in order. -/
def goodTabs (items : List TabLine) : List Tab :=
  items.filterMap (fun it =>
    match it with
    | .valid u t i => some { url := u, title := t, window := Int.ofNat i }
    | .junk _ => none)

theorem parseTabsLoop_eq_none {lines : List PyStr}
    (h : ∃ l ∈ lines, l ≠ [] ∧ ∃ a b c, l.splitOn '|' = [a, b, c] ∧ pyInt c = none) :
    parseTabsLoop lines = none := by
  induction lines with
  | nil => simp at h
  | cons line rest ih =>
    obtain ⟨l, hl, hlne, a, b, c, hsp, hbad⟩ := h
    rcases List.mem_cons.mp hl with rfl | hl
    · simp [parseTabsLoop, hlne, hsp, hbad]
    · have hrest := ih ⟨l, hl, hlne, a, b, c, hsp, hbad⟩
      by_cases hline : line = []
      · simp [parseTabsLoop, hline, hrest]
      · rcases hsp2 : line.splitOn '|' with _ | ⟨x, _ | ⟨y, _ | ⟨z, _ | w⟩⟩⟩
        · simp [parseTabsLoop, hline, hsp2, hrest]
        · simp [parseTabsLoop, hline, hsp2, hrest]
        · simp [parseTabsLoop, hline, hsp2, hrest]
        · cases hpi : pyInt z with
          | none => simp [parseTabsLoop, hline, hsp2, hpi]
          | some n => simp [parseTabsLoop, hline, hsp2, hpi, hrest]
        · simp [parseTabsLoop, hline, hsp2, hrest]

/-! ### Claim theorems -/

/-- C5: for every automation-layer output consisting of valid pipe-delimited
tab lines (no delimiter inside the url/title fields), the parsing loop of
`getCurrentChromeTabs` recovers exactly the original url/title/window-index
triple of each valid line, and any non-empty line whose field count differs
from three is dropped without error while the remaining lines are still
parsed. -/
theorem tabLines_roundTrip (items : List TabLine)
    (h : ∀ it ∈ items, wellFormedTabLine it = true) :
    parseTabsLoop (items.map renderTabLine) = some (goodTabs items) := by
  induction items with
  | nil => rfl
  | cons it rest ih =>
    have hrest := ih (fun x hx => h x (List.mem_cons_of_mem it hx))
    have hit := h it (List.mem_cons_self it rest)
    cases it with
    | valid u t i =>
      simp only [wellFormedTabLine, Bool.and_eq_true, decide_eq_true_eq] at hit
      simp only [List.map_cons, renderTabLine, parseTabsLoop,
        splitOn_renderValid hit.1 hit.2 i, pyInt_natToDecimal, hrest,
        goodTabs, List.filterMap_cons]
      simp
    | junk s =>
      have hlen : ¬((s.splitOn '|').length = 3) := by
        simpa only [wellFormedTabLine, bne_iff_ne, ne_eq] using hit
      by_cases hs : s = []
      · subst hs
        simp only [List.map_cons, renderTabLine, parseTabsLoop, if_pos]
        simpa [goodTabs, List.filterMap_cons] using hrest
      · rcases hsp : s.splitOn '|' with _ | ⟨x, _ | ⟨y, _ | ⟨z, _ | w⟩⟩⟩
        · simp [renderTabLine, parseTabsLoop, hs, hsp, goodTabs, hrest]
        · simp [renderTabLine, parseTabsLoop, hs, hsp, goodTabs, hrest]
        · simp [renderTabLine, parseTabsLoop, hs, hsp, goodTabs, hrest]
        · exact (hlen (by simp [hsp])).elim
        · simp [renderTabLine, parseTabsLoop, hs, hsp, goodTabs, hrest]

/-- Witness for C5 at a concrete mixed line list. -/
theorem tabLines_roundTrip_witness :
    parseTabsLoop
        ([TabLine.valid (String.toList "https://a.example") (String.toList "Home") 2,
          TabLine.junk (String.toList "definitely junk"),
          TabLine.valid (String.toList "https://b.example") (String.toList "Work") 1].map
          renderTabLine) =
      some (goodTabs
        [TabLine.valid (String.toList "https://a.example") (String.toList "Home") 2,
          TabLine.junk (String.toList "definitely junk"),
          TabLine.valid (String.toList "https://b.example") (String.toList "Work") 1]) :=
  tabLines_roundTrip _ (by decide)

/-- C10: if any non-empty line of the automation output splits into exactly
three fields but its third field is not a parseable integer, the exception
raised by `int()` discards everything parsed so far and `getCurrentChromeTabs`
returns the empty list. -/
theorem badIntLine_discards_all (out err : PyStr)
    (h : ∃ l ∈ (pyStrip out).splitOn '\n',
      l ≠ [] ∧ ∃ a b c, l.splitOn '|' = [a, b, c] ∧ pyInt c = none) :
    getCurrentChromeTabs (SubprocessOutcome.completed 0 out err) = [] := by
  simp [getCurrentChromeTabs, parseTabsLoop_eq_none h]

/-- Witness for C10: the second line has three fields but the third field is
not an integer, so even the well-formed first line is discarded. -/
theorem badIntLine_discards_all_witness :
    getCurrentChromeTabs
      (SubprocessOutcome.completed 0 (String.toList "a|b|1\nx|y|z") []) = [] :=
  badIntLine_discards_all _ _
    ⟨String.toList "x|y|z", by decide, by decide,
     String.toList "x", String.toList "y", String.toList "z", by decide, by decide⟩

/-- C1 counterexample: the claim fails as stated.  With the store and its
journal sidecar present and the query step raising, the except-path cleanup
removes only the scratch copy, so the scratch journal sidecar still exists on
disk after the call. -/
theorem copyCleanup_journal_counterexample :
    ((getRecentChromeHistoryCopy ⟨true, true, false, false⟩ CopyFail.atQuery []).1).scratchJournalExists =
      true := by
  decide

/-- C1 amended: for every invocation of `getRecentChromeHistoryCopy` starting
with no scratch files present, the scratch copy of the store does not exist
on disk after the call; the journal sidecar is also gone whenever the call
raised no exception, but it may remain after an error that occurs once the
sidecar was copied. -/
theorem copyCleanup_amended (fs : FS) (fail : CopyFail) (rows : List Row)
    (h1 : fs.scratchExists = false) (h2 : fs.scratchJournalExists = false) :
    ((getRecentChromeHistoryCopy fs fail rows).1).scratchExists = false ∧
      (fail = CopyFail.ok →
        ((getRecentChromeHistoryCopy fs fail rows).1).scratchJournalExists = false) := by
  obtain ⟨hist, jour, scr, scrj⟩ := fs
  have h1 : scr = false := h1
  have h2 : scrj = false := h2
  subst h1; subst h2
  cases hist <;> cases jour <;> cases fail <;>
    simp [getRecentChromeHistoryCopy, copyExceptCleanup]

/-- Witness for the amended C1 at a concrete clean state. -/
theorem copyCleanup_amended_witness :
    ((getRecentChromeHistoryCopy ⟨true, true, false, false⟩ CopyFail.ok []).1).scratchExists =
        false ∧
      (CopyFail.ok = CopyFail.ok →
        ((getRecentChromeHistoryCopy ⟨true, true, false, false⟩ CopyFail.ok []).1).scratchJournalExists =
          false) :=
  copyCleanup_amended ⟨true, true, false, false⟩ CopyFail.ok [] rfl rfl

/-- C2 counterexample: the claim fails as stated.  A row whose vendor
timestamp is exactly 0 is converted to an absent visit time (`None`), not to
the defined value the conversion formula would give. -/
theorem timestampZero_counterexample :
    (rowToEntryWAL
        { url := [], title := none, visit_count := 0, visit_time := some 0,
          visit_duration := none }).visit_time = none ∧
    (rowToEntryWAL
        { url := [], title := none, visit_count := 0, visit_time := some 0,
          visit_duration := none }).visit_time ≠ some (chromeTimeToUnix 0) := by
  refine ⟨rfl, ?_⟩
  simp [rowToEntryWAL, pyTruthyInt]

/-- C2 amended: converting the vendor timestamp 0 yields an absent value,
exactly as null does (zero is falsy); the conversion formula itself,
evaluated at 0, equals −11,644,473,600 seconds relative to the 1970-01-01
epoch, but the code never applies it to a zero timestamp. -/
theorem timestampZero_amended :
    (rowToEntryWAL
        { url := [], title := none, visit_count := 0, visit_time := some 0,
          visit_duration := none }).visit_time = none ∧
    (rowToEntryCopy
        { url := [], title := none, visit_count := 0, visit_time := some 0,
          visit_duration := none }).visit_time = none ∧
    chromeTimeToUnix 0 = -11644473600 := by
  refine ⟨rfl, rfl, ?_⟩
  norm_num [chromeTimeToUnix]

/-- C3: for every history row whose vendor timestamp is null or zero, the
returned entry's visit-time field is absent, in both strategies, never a
default or epoch date. -/
theorem nullOrZeroTimestamp_absent (r : Row)
    (h : r.visit_time = none ∨ r.visit_time = some 0) :
    (rowToEntryWAL r).visit_time = none ∧ (rowToEntryCopy r).visit_time = none := by
  rcases h with h | h <;> simp [rowToEntryWAL, rowToEntryCopy, pyTruthyInt, h]

/-- Witness for C3 at a concrete zero-timestamp row. -/
theorem nullOrZeroTimestamp_absent_witness :
    (rowToEntryWAL
        { url := String.toList "u", title := none, visit_count := 7, visit_time := some 0,
          visit_duration := some 5 }).visit_time = none ∧
    (rowToEntryCopy
        { url := String.toList "u", title := none, visit_count := 7, visit_time := some 0,
          visit_duration := some 5 }).visit_time = none :=
  nullOrZeroTimestamp_absent _ (Or.inr rfl)

/-- C4: for every nonzero integer vendor timestamp, both strategies convert
it with the pure deterministic function that divides by 1,000,000 and
subtracts 11,644,473,600, read as seconds since the 1970-01-01 epoch; equal
inputs yield equal outputs. -/
theorem timestampConversion_spec (r : Row) (t : Int)
    (ht : r.visit_time = some t) (hnz : t ≠ 0) :
    (rowToEntryWAL r).visit_time = some (specTimestampConversion t) ∧
    (rowToEntryCopy r).visit_time = some (specTimestampConversion t) ∧
    ∀ t2 : Int, t = t2 → specTimestampConversion t = specTimestampConversion t2 := by
  refine ⟨?_, ?_, fun t2 ht2 => by rw [ht2]⟩ <;>
    simp [rowToEntryWAL, rowToEntryCopy, pyTruthyInt, ht, hnz, chromeTimeToUnix,
      specTimestampConversion]

/-- Witness for C4 at the concrete timestamp 1,000,000. -/
theorem timestampConversion_spec_witness :
    (rowToEntryWAL
        { url := [], title := none, visit_count := 1, visit_time := some 1000000,
          visit_duration := none }).visit_time = some (specTimestampConversion 1000000) ∧
    (rowToEntryCopy
        { url := [], title := none, visit_count := 1, visit_time := some 1000000,
          visit_duration := none }).visit_time = some (specTimestampConversion 1000000) ∧
    ∀ t2 : Int, 1000000 = t2 →
      specTimestampConversion 1000000 = specTimestampConversion t2 :=
  timestampConversion_spec _ 1000000 rfl (by norm_num)

/-- C6: every failure mode of either utility — external-process timeout,
non-zero exit status, an exception raised while parsing, store not found,
operational error, any other exception, and every failing step of the copy
strategy — yields an empty list; no exception crosses the operation
boundary (every modeled operation is a total function into a plain list). -/
theorem failures_return_empty :
    getCurrentChromeTabs SubprocessOutcome.timeout = [] ∧
    (∀ (rc : Int) (out err : PyStr), rc ≠ 0 →
      getCurrentChromeTabs (SubprocessOutcome.completed rc out err) = []) ∧
    (∀ (out err : PyStr), parseTabsLoop ((pyStrip out).splitOn '\n') = none →
      getCurrentChromeTabs (SubprocessOutcome.completed 0 out err) = []) ∧
    getRecentChromeHistoryWAL WALEnv.notFound = [] ∧
    getRecentChromeHistoryWAL WALEnv.opError = [] ∧
    getRecentChromeHistoryWAL WALEnv.otherError = [] ∧
    (∀ (fs : FS) (rows : List Row), fs.historyExists = false →
      (getRecentChromeHistoryCopy fs CopyFail.ok rows).2 = []) ∧
    (∀ (fs : FS) (rows : List Row),
      (getRecentChromeHistoryCopy fs CopyFail.atCopyMain rows).2 = []) ∧
    (∀ (fs : FS) (rows : List Row), fs.journalExists = true →
      (getRecentChromeHistoryCopy fs CopyFail.atCopyJournal rows).2 = []) ∧
    (∀ (fs : FS) (rows : List Row),
      (getRecentChromeHistoryCopy fs CopyFail.atQuery rows).2 = []) := by
  refine ⟨rfl, ?_, ?_, rfl, rfl, rfl, ?_, ?_, ?_, ?_⟩
  · intro rc out err h
    simp [getCurrentChromeTabs, h]
  · intro out err h
    simp [getCurrentChromeTabs, h]
  · intro fs rows h
    simp [getRecentChromeHistoryCopy, h]
  · intro fs rows
    by_cases h : fs.historyExists = false <;>
      simp [getRecentChromeHistoryCopy, h, copyExceptCleanup]
  · intro fs rows h
    by_cases h2 : fs.historyExists = false <;>
      simp [getRecentChromeHistoryCopy, h, h2, copyExceptCleanup]
  · intro fs rows
    by_cases h2 : fs.historyExists = false <;>
      simp [getRecentChromeHistoryCopy, h2, copyExceptCleanup]

/-- Witness for C6 at concrete failing inputs: non-zero exit status, missing
store, journal-copy failure, and an unparseable third field. -/
theorem failures_return_empty_witness :
    getCurrentChromeTabs (SubprocessOutcome.completed 2 [] []) = [] ∧
    (getRecentChromeHistoryCopy ⟨false, false, false, false⟩ CopyFail.ok []).2 = [] ∧
    (getRecentChromeHistoryCopy ⟨true, true, false, false⟩ CopyFail.atCopyJournal []).2 = [] ∧
    getCurrentChromeTabs (SubprocessOutcome.completed 0 (String.toList "q|w|e") []) = [] :=
  ⟨failures_return_empty.2.1 2 [] [] (by norm_num),
   failures_return_empty.2.2.2.2.2.2.1 ⟨false, false, false, false⟩ [] rfl,
   failures_return_empty.2.2.2.2.2.2.2.2.1 ⟨true, true, false, false⟩ [] rfl,
   failures_return_empty.2.2.1 (String.toList "q|w|e") [] (by decide)⟩

/-- C7 evaluation: an absent timestamp yields "Unknown time", and the 30 s,
90 s and same-day 2 h deltas bucket as the claim says; but a delta of exactly
2 days yields "0 seconds ago" rather than a days-based string, because the
code buckets on the intra-day remainder `timedelta.seconds` before ever
looking at `days`. -/
theorem formatTimeDelta_eval :
    formatTimeDelta none = "Unknown time" ∧
    formatTimeDelta (some 30) = "30 seconds ago" ∧
    formatTimeDelta (some 90) = "1 minutes ago" ∧
    formatTimeDelta (some 7200) = "2 hours ago" ∧
    formatTimeDelta (some 172800) = "0 seconds ago" := by
  decide

/-- C8: both scripts' distraction filters return exactly the subsequence of
records whose URL contains a listed domain substring, in input order; with
zero matches the result is empty, and when every record matches the input
comes back unchanged. -/
theorem distractionFilter_spec (tabs : List Tab) (history : List Entry) :
    ((distractions tabs).Sublist tabs ∧
      (∀ t : Tab, t ∈ distractions tabs ↔ t ∈ tabs ∧ isDistraction t.url = true) ∧
      ((∀ t ∈ tabs, isDistraction t.url = false) → distractions tabs = []) ∧
      ((∀ t ∈ tabs, isDistraction t.url = true) → distractions tabs = tabs)) ∧
    ((recentDistractions history).Sublist history ∧
      (∀ e : Entry, e ∈ recentDistractions history ↔ e ∈ history ∧ isDistraction e.url = true) ∧
      ((∀ e ∈ history, isDistraction e.url = false) → recentDistractions history = []) ∧
      ((∀ e ∈ history, isDistraction e.url = true) → recentDistractions history = history)) := by
  refine ⟨⟨List.filter_sublist _, ?_, ?_, ?_⟩, ⟨List.filter_sublist _, ?_, ?_, ?_⟩⟩
  · intro t; simp [distractions, List.mem_filter]
  · intro h
    simp only [distractions, List.filter_eq_nil_iff]
    intro t ht
    simp [h t ht]
  · intro h
    simp only [distractions, List.filter_eq_self]
    intro t ht
    simp [h t ht]
  · intro e; simp [recentDistractions, List.mem_filter]
  · intro h
    simp only [recentDistractions, List.filter_eq_nil_iff]
    intro e he
    simp [h e he]
  · intro h
    simp only [recentDistractions, List.filter_eq_self]
    intro e he
    simp [h e he]

/-- Witness for C8: an all-match tab list comes back unchanged and a
no-match history list filters to empty. -/
theorem distractionFilter_spec_witness :
    distractions
        [{ url := String.toList "https://www.youtube.com/watch", title := String.toList "v",
           window := 1 }] =
      [{ url := String.toList "https://www.youtube.com/watch", title := String.toList "v",
         window := 1 }] ∧
    recentDistractions
        [{ url := String.toList "https://example.org", title := String.toList "t",
           visit_time := none, visit_count := 1, duration_seconds := 0 }] = [] :=
  ⟨(distractionFilter_spec
        [{ url := String.toList "https://www.youtube.com/watch", title := String.toList "v",
           window := 1 }] []).1.2.2.2 (by decide),
   (distractionFilter_spec []
        [{ url := String.toList "https://example.org", title := String.toList "t",
           visit_time := none, visit_count := 1, duration_seconds := 0 }]).2.2.2.1 (by decide)⟩

/-- C9: given the same fetched rows, the WAL strategy and the copy strategy
produce exactly the same history list — same per-row transformation, same
defaults, same timestamp conversion, same order — and they issue the
identical SQL query text. -/
theorem strategies_agree (rows : List Row) :
    getRecentChromeHistoryWAL (WALEnv.ok rows) =
      (getRecentChromeHistoryCopy ⟨true, false, false, false⟩ CopyFail.ok rows).2 ∧
    rows.map rowToEntryWAL = rows.map rowToEntryCopy ∧
    walQuery = copyQuery := by
  have hfun : rowToEntryWAL = rowToEntryCopy := rfl
  refine ⟨?_, by rw [hfun], rfl⟩
  simp [getRecentChromeHistoryWAL, getRecentChromeHistoryCopy, hfun]
